import Mathlib

/-!
Shallow embedding of `cargo-dist`'s CI-workflow generator (`src/cargo-dist/src/ci.rs`).

The Rust module exposes three pieces:
* three static YAML template fragments (`GITHUB_CI_PART1/2/3`),
* `github_os_for_target`, a pure substring dispatch from a target triple to a
  GitHub runner OS,
* `write_github_ci`, which writes the document (template fragments, one env
  line built from all targets, one matrix entry per mappable target) and emits
  a warning for every unmappable target, and
* `generate_github_ci`, which creates the workflow directory and file and
  drives `write_github_ci`, wrapping each failure with a step-specific context.

Strings are modelled as Lean `String`; the writer's side effects are modelled
by an explicit `FileState` (accumulated output bytes plus the list of warning
messages in emission order); the filesystem is modelled by an environment of
fallible operations plus a path-to-contents map, so that error propagation,
determinism and idempotence are statable.
-/

def GITHUB_CI_PART1 : String := String.intercalate "\n" [
  "",
  "# CI that:",
  "#",
  "# * checks for a Git Tag that looks like a release (\"v1.2.0\")",
  "# * creates a Github Release™️",
  "# * builds binaries/packages with cargo-dist",
  "# * uploads those packages to the Github Release™️",
  "#",
  "# Note that the Github Release™️ will be created before the packages,",
  "# so there will be a few minutes where the release has no packages",
  "# and then they will slowly trickle in, possibly failing. To make",
  "# this more pleasant we mark the release as a \"draft\" until all",
  "# artifacts have been successfully uploaded. This allows you to",
  "# choose what to do with partial successes and avoids spamming",
  "# anyone with notifications before the release is actually ready.",
  "name: Release",
  "",
  "permissions:",
  "  contents: write",
  "",
  "# This task will run whenever you push a git tag that looks like",
  "# a version number. We just look for `v` followed by at least one number",
  "# and then whatever. so `v1`, `v1.0.0`, and `v1.0.0-prerelease` all work.",
  "#",
  "# If there\x27s a prerelease-style suffix to the version then the Github Release™️",
  "# will be marked as a prerelease (handled by taiki-e/create-gh-release-action).",
  "on:",
  "  push:",
  "    tags:",
  "      - v[0-9]+.*",
  "",
  "env:"]

def GITHUB_CI_PART2 : String := String.intercalate "\n" [
  "",
  "jobs:",
  "  # Create the Github Release™️ so the packages have something to be uploaded to",
  "  create-release:",
  "    runs-on: ubuntu-latest",
  "    outputs:",
  "      tag: $\x7b\x7b steps.create-gh-release.outputs.computed-prefix \x7d\x7d$\x7b\x7b steps.create-gh-release.outputs.version \x7d\x7d",
  "    steps:",
  "      - uses: actions/checkout@v3",
  "      - id: create-gh-release",
  "        uses: taiki-e/create-gh-release-action@v1",
  "        with:",
  "          # (optional) Path to changelog. This will used to for the body of the Github Releaase™️",
  "          # changelog: RELEASES.md",
  "          draft: true",
  "          # (required) GitHub token for creating GitHub Releases.",
  "          token: $\x7b\x7b secrets.GITHUB_TOKEN \x7d\x7d",
  "",
  "",
  "  # Build and packages all the things",
  "  upload-artifacts:",
  "    needs: create-release",
  "    strategy:",
  "      matrix:",
  "        # For these target platforms",
  "        include:"]

def GITHUB_CI_PART3 : String := String.intercalate "\n" [
  "",
  "    runs-on: $\x7b\x7b matrix.os \x7d\x7d",
  "    env:",
  "      GH_TOKEN: $\x7b\x7b secrets.GITHUB_TOKEN \x7d\x7d",
  "    steps:",
  "      - uses: actions/checkout@v3",
  "      - name: Install Rust",
  "        run: rustup update stable && rustup default stable",
  "      - name: Install cargo-dist",
  "        # Currently we install cargo-dist from git, in the future when it\x27s",
  "        # published on crates.io or has prebuilt binaries, we\x27ll do better.",
  "        run: cargo install --git https://github.com/axodotdev/cargo-dist/",
  "      - name: Run cargo-dist",
  "        # This logic is a bit janky because it\x27s trying to be a polyglot between",
  "        # powershell and bash since this will run on windows, macos, and linux!",
  "        # The two platforms don\x27t agree on how to talk about env vars but they",
  "        # do agree on \x27cat\x27 and \x27$()\x27 so we use that to marshal values between commmands.",
  "        run: |",
  "          cargo dist --output-format=json > dist-manifest.json",
  "          echo \"dist ran successfully\"",
  "          cat dist-manifest.json",
  "          cat dist-manifest.json | jq --raw-output \".releases[].artifacts[].path\" > uploads.txt",
  "          echo \"uploading...\"",
  "          cat uploads.txt",
  "          gh release upload $\x7b\x7b needs.create-release.outputs.tag \x7d\x7d $(cat uploads.txt)",
  "          echo \"uploaded!\"",
  "",
  "  # Compute and upload the manifest for everything",
  "  upload-manifest:",
  "    needs: create-release",
  "    runs-on: ubuntu-latest",
  "    env:",
  "      GH_TOKEN: $\x7b\x7b secrets.GITHUB_TOKEN \x7d\x7d",
  "    steps:",
  "      - uses: actions/checkout@v3",
  "      - name: Install Rust",
  "        run: rustup update stable && rustup default stable",
  "      - name: Install cargo-dist",
  "        # Currently we install cargo-dist from git, in the future when it\x27s",
  "        # published on crates.io or has prebuilt binaries, we\x27ll do better.",
  "        run: cargo install --git https://github.com/axodotdev/cargo-dist/",
  "      - name: Run cargo-dist",
  "        run: |",
  "          cargo dist manifest --output-format=json $ALL_CARGO_DIST_TARGET_ARGS > dist-manifest.json",
  "          echo \"dist ran successfully\"",
  "          cat dist-manifest.json",
  "          gh release upload $\x7b\x7b needs.create-release.outputs.tag \x7d\x7d dist-manifest.json",
  "          echo \"uploaded!\"",
  "",
  "",
  "  # Mark the Github Release™️ as a non-draft now that everything has succeeded!",
  "  publish-release:",
  "    needs: [create-release, upload-artifacts, upload-manifest]",
  "    runs-on: ubuntu-latest",
  "    env:",
  "      GH_TOKEN: $\x7b\x7b secrets.GITHUB_TOKEN \x7d\x7d",
  "    steps:",
  "      - uses: actions/checkout@v3",
  "      - name: mark release as non-draft",
  "        run: |",
  "          gh release edit $\x7b\x7b needs.create-release.outputs.tag \x7d\x7d --draft=false",
  ""]


/-- Rust `str::contains`: `strContains s pat` holds iff `pat` occurs as a
contiguous substring of `s` (modelled at the character level). -/
def strContains (s pat : String) : Bool :=
  decide (pat.data <:+: s.data)

/-- Embeds `github_os_for_target` from `ci.rs`: ordered first-match substring
dispatch from a build-target triple to a GitHub runner OS. -/
def github_os_for_target (target : String) : Option String :=
  if strContains target "linux" then some "ubuntu-latest"
  else if strContains target "apple" then some "macos-latest"
  else if strContains target "windows" then some "windows-latest"
  else none

/-- The observable effects of `write_github_ci`: the bytes written to the file
so far, and the warning messages emitted so far (in order). -/
structure FileState where
  out : String
  warnings : List String
deriving DecidableEq

/-- Rust `writeln!(f, "...")`: append the text and a newline to the file. -/
def wln (s : FileState) (x : String) : FileState :=
  { s with out := s.out ++ x ++ "\n" }

/-- Rust `warn!(...)`: record a warning message; the file is untouched. -/
def warn (s : FileState) (m : String) : FileState :=
  { s with warnings := s.warnings ++ [m] }

/-- The `target_args` accumulation loop of `write_github_ci`:
`write!(&mut target_args, "--target={target} ")` for each target. -/
def targetArgsFold (targets : List String) : String :=
  targets.foldl (fun acc t => acc ++ "--target=" ++ t ++ " ") ""

/-- The matrix-entry loop of `write_github_ci`: for each target, either two
lines (`- target:` and `os:`) when the runner OS resolves, or a warning. -/
def matrixLoop (s : FileState) (targets : List String) : FileState :=
  targets.foldl
    (fun s t =>
      match github_os_for_target t with
      | none =>
          warn s ("skipping generating ci for " ++ t ++
            " (no idea what github os should build this)")
      | some os => wln (wln s ("        - target: " ++ t)) ("          os: " ++ os))
    s

/-- Embeds `write_github_ci` from `ci.rs`: the full document produced for a
target list, together with the warnings emitted along the way. -/
def write_github_ci (targets : List String) : FileState :=
  let s := wln ⟨"", []⟩ GITHUB_CI_PART1
  let s := wln s ("  ALL_CARGO_DIST_TARGET_ARGS: " ++ targetArgsFold targets)
  let s := wln s GITHUB_CI_PART2
  let s := matrixLoop s targets
  wln s GITHUB_CI_PART3

/-- An underlying I/O error (`std::io::Error`), identified by its message. -/
structure IoError where
  msg : String
deriving DecidableEq

/-- A `miette::Report` produced by `wrap_err`: a context string layered over
the underlying I/O error. -/
structure Report where
  context : String
  source : IoError
deriving DecidableEq

/-- The filesystem environment: for each fallible operation performed by
`generate_github_ci`, whether it fails (`some e`) or succeeds (`none`). -/
structure FsEnv where
  createDirAllResult : String → Option IoError
  createFileResult : String → Option IoError
  writeResult : Option IoError

/-- The filesystem contents: an association of paths to file contents. -/
structure FsState where
  files : List (String × String)
deriving DecidableEq

/-- Create/overwrite the file at `path` with `content`. -/
def setFile (fs : FsState) (path content : String) : FsState :=
  ⟨(path, content) :: fs.files.eraseP (fun e => e.1 == path)⟩

/-- Read the file at `path`, if present. -/
def getFile (fs : FsState) (path : String) : Option String :=
  (fs.files.find? (fun e => e.1 == path)).map (fun e => e.2)

/-- The filesystem operations attempted by `generate_github_ci`, in order. -/
inductive FsAction where
  | createDirAll (path : String)
  | createFile (path : String)
  | writeDoc (path : String)
deriving DecidableEq

def GITHUB_CI_DIR : String := ".github/workflows/"

def GITHUB_CI_FILE : String := "release.yml"

/-- `camino::Utf8PathBuf::join` in the cases used here: push a separator when
the base does not already end in one. -/
def pathJoin (a b : String) : String :=
  if a.endsWith "/" then a ++ b else a ++ "/" ++ b

/-- `workspace_dir.join(GITHUB_CI_DIR)` from `generate_github_ci`. -/
def ciDir (workspace_dir : String) : String := pathJoin workspace_dir GITHUB_CI_DIR

/-- `ci_dir.join(GITHUB_CI_FILE)` from `generate_github_ci`. -/
def ciFile (workspace_dir : String) : String := pathJoin (ciDir workspace_dir) GITHUB_CI_FILE

/-- Embeds `generate_github_ci` from `ci.rs` over the filesystem model:
create the workflow directory, create (truncating) the workflow file, then
write the document; each failure is wrapped with its step's context string and
propagated immediately. Returns the result, the filesystem afterwards, and
the trace of attempted filesystem operations. -/
def generate_github_ci (env : FsEnv) (fs : FsState) (workspace_dir : String)
    (targets : List String) : Except Report Unit × FsState × List FsAction :=
  match env.createDirAllResult (ciDir workspace_dir) with
  | some e => (.error ⟨"Failed to create ci dir", e⟩, fs, [.createDirAll (ciDir workspace_dir)])
  | none =>
    match env.createFileResult (ciFile workspace_dir) with
    | some e =>
        (.error ⟨"Failed to create ci file", e⟩, fs,
          [.createDirAll (ciDir workspace_dir), .createFile (ciFile workspace_dir)])
    | none =>
      match env.writeResult with
      | some e =>
          (.error ⟨"Failed to write to CI file", e⟩, setFile fs (ciFile workspace_dir) "",
            [.createDirAll (ciDir workspace_dir), .createFile (ciFile workspace_dir),
              .writeDoc (ciFile workspace_dir)])
      | none =>
          (.ok (),
            setFile (setFile fs (ciFile workspace_dir) "") (ciFile workspace_dir)
              (write_github_ci targets).out,
            [.createDirAll (ciDir workspace_dir), .createFile (ciFile workspace_dir),
              .writeDoc (ciFile workspace_dir)])

/-- Spec-side: the per-target flag token of the env line. -/
def flagToken (t : String) : String := "--target=" ++ t ++ " "

/-- Spec-side: the single environment-variable line, one flag token per input
target in input order. -/
def envLine (targets : List String) : String :=
  "  ALL_CARGO_DIST_TARGET_ARGS: " ++ String.join (targets.map flagToken)

/-- Spec-side (MatrixBuilder): the matrix entries, one `(target, runnerOS)`
pair per mappable target, in input order. -/
def matrixEntries (targets : List String) : List (String × String) :=
  targets.filterMap (fun t => (github_os_for_target t).map (fun os => (t, os)))

/-- Spec-side: the two rendered lines of one matrix entry. -/
def renderEntry (e : String × String) : String :=
  ("        - target: " ++ e.1 ++ "\n") ++ ("          os: " ++ e.2 ++ "\n")

/-- Spec-side: the rendered matrix block. -/
def matrixBlockStr (targets : List String) : String :=
  String.join ((matrixEntries targets).map renderEntry)

/-- Spec-side: the warning message emitted for an unmappable target. -/
def warnMsg (t : String) : String :=
  "skipping generating ci for " ++ t ++ " (no idea what github os should build this)"

/-- Spec-side: the targets skipped because no runner OS resolves. -/
def skippedTargets (targets : List String) : List String :=
  targets.filter (fun t => (github_os_for_target t).isNone)

/-- Folding `++` over a list of strings, from any accumulator. -/
theorem foldl_append_from (l : List String) (acc : String) :
    l.foldl (fun r s => r ++ s) acc = acc ++ l.foldl (fun r s => r ++ s) "" := by
  induction l generalizing acc with
  | nil => simp
  | cons a l ih =>
    simp only [List.foldl_cons]
    rw [ih (acc ++ a), ih ("" ++ a), String.empty_append, String.append_assoc]

/-- `String.join` unfolds one element at a time. -/
theorem join_cons (a : String) (l : List String) :
    String.join (a :: l) = a ++ String.join l := by
  simp only [String.join, List.foldl_cons]
  rw [foldl_append_from l ("" ++ a), String.empty_append]

/-- `String.join` of the empty list. -/
theorem join_nil : String.join [] = "" := rfl

/-- The `target_args` loop produces one flag token per target, in order. -/
theorem targetArgsFold_eq_join (l : List String) :
    targetArgsFold l = String.join (l.map flagToken) := by
  suffices h : ∀ acc : String,
      l.foldl (fun acc t => acc ++ "--target=" ++ t ++ " ") acc
        = acc ++ String.join (l.map flagToken) by
    simpa [targetArgsFold] using h ""
  induction l with
  | nil => intro acc; simp [join_nil]
  | cons a l ih =>
    intro acc
    rw [List.foldl_cons, ih]
    simp [flagToken, join_cons, String.append_assoc]

/-- The matrix loop appends the rendered matrix block to the output and the
skipped-target warnings to the warning list. -/
theorem matrixLoop_eq (l : List String) (s : FileState) :
    matrixLoop s l
      = ⟨s.out ++ matrixBlockStr l, s.warnings ++ (skippedTargets l).map warnMsg⟩ := by
  induction l generalizing s with
  | nil =>
    cases s
    simp [matrixLoop, matrixBlockStr, matrixEntries, skippedTargets, join_nil]
  | cons a l ih =>
    have step : matrixLoop s (a :: l)
        = matrixLoop
            (match github_os_for_target a with
             | none =>
                 warn s ("skipping generating ci for " ++ a ++
                   " (no idea what github os should build this)")
             | some os =>
                 wln (wln s ("        - target: " ++ a)) ("          os: " ++ os)) l := by
      simp only [matrixLoop, List.foldl_cons]
    rw [step]
    cases hres : github_os_for_target a with
    | none =>
      rw [ih]
      simp [warn, matrixBlockStr, matrixEntries, skippedTargets, hres, warnMsg]
    | some os =>
      rw [ih]
      simp [wln, matrixBlockStr, matrixEntries, skippedTargets, hres, join_cons,
        renderEntry, String.append_assoc]


/-- Structural decomposition of the generated document: the three static
fragments, the env line and the matrix block, in fixed order; the warnings
are exactly the skipped targets' messages. -/
theorem write_github_ci_eq (T : List String) :
    write_github_ci T
      = ⟨GITHUB_CI_PART1 ++ "\n" ++ envLine T ++ "\n" ++ GITHUB_CI_PART2 ++ "\n"
          ++ matrixBlockStr T ++ (GITHUB_CI_PART3 ++ "\n"),
         (skippedTargets T).map warnMsg⟩ := by
  simp [write_github_ci, wln, matrixLoop_eq, envLine, targetArgsFold_eq_join,
    String.append_assoc]

/-- Writing the same path twice keeps only the last contents. -/
theorem setFile_setFile (fs : FsState) (p b c : String) :
    setFile (setFile fs p b) p c = setFile fs p c := by
  simp [setFile, List.eraseP_cons_of_pos]

/-- Reading a path just written returns the written contents. -/
theorem getFile_setFile (fs : FsState) (p c : String) :
    getFile (setFile fs p c) p = some c := by
  simp [getFile, setFile, List.find?_cons_of_pos]

/-- `flagToken` is injective: distinct targets yield distinct tokens. -/
theorem flagToken_injective : Function.Injective flagToken := by
  intro a b h
  have hd := congrArg String.data h
  simp only [flagToken, String.data_append, List.append_cancel_left_eq,
    List.append_cancel_right_eq] at hd
  cases a; cases b
  exact congrArg String.mk hd

/-- Each occurrence of a target contributes exactly one flag token. -/
theorem count_map_flagToken (T : List String) (t : String) :
    (T.map flagToken).count (flagToken t) = T.count t := by
  induction T with
  | nil => rfl
  | cons a T ih =>
    by_cases hat : a = t
    · subst hat
      simp [List.count_cons, ih]
    · have hne : flagToken t ≠ flagToken a := fun hc => hat (flagToken_injective hc).symm
      simp [List.count_cons, Ne.symm hat, hne, ih]

/-- `matrixEntries` unfolds one target at a time. -/
theorem matrixEntries_cons (a : String) (T : List String) :
    matrixEntries (a :: T)
      = match github_os_for_target a with
        | none => matrixEntries T
        | some os => (a, os) :: matrixEntries T := by
  cases hres : github_os_for_target a <;>
    simp [matrixEntries, List.filterMap_cons, hres]

/-- Each occurrence of a mappable target contributes exactly one matrix entry. -/
theorem count_matrixEntries (T : List String) (t os : String)
    (h : github_os_for_target t = some os) :
    (matrixEntries T).count (t, os) = T.count t := by
  induction T with
  | nil => rfl
  | cons a T ih =>
    rw [matrixEntries_cons]
    cases hres : github_os_for_target a with
    | none =>
      have hat : a ≠ t := fun hc => by rw [hc, h] at hres; exact Option.noConfusion hres
      simp [ih, List.count_cons, Ne.symm hat]
    | some os2 =>
      by_cases hat : a = t
      · subst hat
        rw [h] at hres
        injection hres with hos
        subst hos
        simp [List.count_cons, ih]
      · have hne : ((t, os) : String × String) ≠ (a, os2) := by simp [Ne.symm hat]
        simp [List.count_cons, hne, Ne.symm hat, ih]

/-- C1: the matrix block of the generated document contains exactly one
two-line entry (target line, then os line) per target with a resolvable
runner OS, in input order (and hence zero entries when no target resolves);
unmappable targets are excluded and instead produce a non-fatal warning that
names the skipped target, while generation still produces the document. -/
theorem matrix_block_per_mappable_target (T : List String) :
    (write_github_ci T).out
      = GITHUB_CI_PART1 ++ "\n" ++ envLine T ++ "\n" ++ GITHUB_CI_PART2 ++ "\n"
        ++ String.join
            ((T.filterMap (fun t => (github_os_for_target t).map (fun os => (t, os)))).map
              renderEntry)
        ++ (GITHUB_CI_PART3 ++ "\n")
    ∧ (write_github_ci T).warnings
        = (T.filter (fun t => (github_os_for_target t).isNone)).map warnMsg
    ∧ (∀ t : String, t.data <:+: (warnMsg t).data)
    ∧ ((∀ t ∈ T, github_os_for_target t = none) → matrixEntries T = []) := by
  refine ⟨?_, ?_, ?_, ?_⟩
  · rw [write_github_ci_eq]
    simp [matrixBlockStr, matrixEntries]
  · rw [write_github_ci_eq]
    rfl
  · intro t
    exact ⟨"skipping generating ci for ".data,
      " (no idea what github os should build this)".data,
      by simp [warnMsg, String.data_append]⟩
  · induction T with
    | nil => intro _; rfl
    | cons a T ih =>
      intro h
      rw [matrixEntries_cons, h a (by simp)]
      exact ih fun t ht => h t (by simp [ht])

/-- C1 witness: for the input list `["riscv64-unknown-none"]`, whose only
target has no runner-OS mapping, the matrix has zero entries. -/
theorem matrix_block_per_mappable_target_witness :
    matrixEntries ["riscv64-unknown-none"] = [] :=
  (matrix_block_per_mappable_target ["riscv64-unknown-none"]).2.2.2 (by decide)

/-- C2: the env line carries exactly one flag token per target of the
original input list, in input order, separated by single spaces with a
trailing space, irrespective of which targets are mappable. -/
theorem env_line_from_original_targets (T : List String) :
    (∃ post : String,
      (write_github_ci T).out
        = GITHUB_CI_PART1 ++ "\n" ++ "  ALL_CARGO_DIST_TARGET_ARGS: "
          ++ String.join (T.map flagToken) ++ "\n" ++ post)
    ∧ (T.map flagToken).length = T.length
    ∧ (∀ t : String, flagToken t = "--target=" ++ t ++ " ") := by
  refine ⟨⟨GITHUB_CI_PART2 ++ "\n" ++ matrixBlockStr T ++ (GITHUB_CI_PART3 ++ "\n"), ?_⟩,
    by simp, fun t => rfl⟩
  rw [write_github_ci_eq]
  simp only [envLine, String.append_assoc]

/-- C3: the target-to-runner-OS resolver is ordered first-match dispatch:
a Linux-indicating substring wins over everything (so a string containing
both "linux" and "apple" resolves to the Linux runner), then Apple, then
Windows, and otherwise there is no mapping. -/
theorem resolver_first_match_order (t : String) :
    ("linux".data <:+: t.data → github_os_for_target t = some "ubuntu-latest")
    ∧ ((¬ ("linux".data <:+: t.data)) → "apple".data <:+: t.data →
        github_os_for_target t = some "macos-latest")
    ∧ ((¬ ("linux".data <:+: t.data)) → (¬ ("apple".data <:+: t.data)) →
        "windows".data <:+: t.data → github_os_for_target t = some "windows-latest")
    ∧ ((¬ ("linux".data <:+: t.data)) → (¬ ("apple".data <:+: t.data)) →
        (¬ ("windows".data <:+: t.data)) → github_os_for_target t = none) := by
  refine ⟨?_, ?_, ?_, ?_⟩ <;> intros <;> simp_all [github_os_for_target, strContains]

/-- C3 witness: a target containing both the Linux and the Apple substring
resolves to the Linux runner. -/
theorem resolver_first_match_order_witness :
    github_os_for_target "aarch64-linux-apple" = some "ubuntu-latest" :=
  (resolver_first_match_order "aarch64-linux-apple").1 (by decide)

/-- C5: every generated document is exactly the three static template
sections (emitted verbatim, independent of the targets), the single env
line and the single (possibly empty) matrix block, in the fixed order
header, env line, job preamble, matrix entries, remaining job definitions. -/
theorem document_structure_invariant (T : List String) :
    (write_github_ci T).out
      = GITHUB_CI_PART1 ++ "\n" ++ envLine T ++ "\n" ++ GITHUB_CI_PART2 ++ "\n"
        ++ matrixBlockStr T ++ (GITHUB_CI_PART3 ++ "\n") := by
  rw [write_github_ci_eq]

/-- The matrix block of the empty target list is empty. -/
theorem matrixBlockStr_nil : matrixBlockStr [] = "" := rfl

/-- An all-succeeding filesystem environment, used by concrete witnesses. -/
def envOk : FsEnv := ⟨fun _ => none, fun _ => none, none⟩

/-- C4: generation is deterministic and idempotent. When the filesystem
operations succeed, the bytes at the destination path after a run are a
function of the target list alone (so two runs from any two prior filesystem
states produce byte-identical output), and running generation twice leaves
the filesystem exactly as one run does. -/
theorem generation_deterministic_idempotent (env : FsEnv) (fs fs2 : FsState)
    (w : String) (T : List String)
    (hd : env.createDirAllResult (ciDir w) = none)
    (hf : env.createFileResult (ciFile w) = none)
    (hw : env.writeResult = none) :
    getFile (generate_github_ci env fs w T).2.1 (ciFile w) = some (write_github_ci T).out
    ∧ getFile (generate_github_ci env fs w T).2.1 (ciFile w)
        = getFile (generate_github_ci env fs2 w T).2.1 (ciFile w)
    ∧ (generate_github_ci env (generate_github_ci env fs w T).2.1 w T).2.1
        = (generate_github_ci env fs w T).2.1 := by
  have hrun : ∀ g : FsState, (generate_github_ci env g w T).2.1
      = setFile (setFile g (ciFile w) "") (ciFile w) (write_github_ci T).out := by
    intro g
    simp [generate_github_ci, hd, hf, hw]
  refine ⟨?_, ?_, ?_⟩
  · rw [hrun]
    exact getFile_setFile ..
  · rw [hrun, hrun, getFile_setFile, getFile_setFile]
  · rw [hrun fs, hrun, setFile_setFile, setFile_setFile, setFile_setFile]

/-- C4 witness: determinism and idempotence at a concrete workspace, two
concrete prior filesystem states and a concrete target list, with an
all-succeeding environment. -/
theorem generation_deterministic_idempotent_witness :
    getFile (generate_github_ci envOk ⟨[]⟩ "ws" ["x86_64-unknown-linux-gnu"]).2.1 (ciFile "ws")
      = some (write_github_ci ["x86_64-unknown-linux-gnu"]).out
    ∧ getFile (generate_github_ci envOk ⟨[]⟩ "ws" ["x86_64-unknown-linux-gnu"]).2.1 (ciFile "ws")
        = getFile (generate_github_ci envOk ⟨[("old", "stale")]⟩ "ws"
            ["x86_64-unknown-linux-gnu"]).2.1 (ciFile "ws")
    ∧ (generate_github_ci envOk
          (generate_github_ci envOk ⟨[]⟩ "ws" ["x86_64-unknown-linux-gnu"]).2.1 "ws"
          ["x86_64-unknown-linux-gnu"]).2.1
        = (generate_github_ci envOk ⟨[]⟩ "ws" ["x86_64-unknown-linux-gnu"]).2.1 :=
  generation_deterministic_idempotent envOk ⟨[]⟩ ⟨[("old", "stale")]⟩ "ws"
    ["x86_64-unknown-linux-gnu"] rfl rfl rfl

/-- C6: targets are neither deduplicated nor validated: a target occurring
`k` times in the input yields `k` flag tokens in the env line, and, when it
is mappable, `k` identical matrix entries. -/
theorem duplicates_preserved_verbatim (T : List String) (t : String) :
    (T.map flagToken).count (flagToken t) = T.count t
    ∧ (∀ os : String, github_os_for_target t = some os →
        (matrixEntries T).count (t, os) = T.count t) :=
  ⟨count_map_flagToken T t, fun os h => count_matrixEntries T t os h⟩

/-- C6 witness: the duplicated mappable target "x86_64-unknown-linux-gnu"
contributes one matrix entry per occurrence. -/
theorem duplicates_preserved_verbatim_witness :
    (matrixEntries ["x86_64-unknown-linux-gnu", "x86_64-unknown-linux-gnu"]).count
        ("x86_64-unknown-linux-gnu", "ubuntu-latest")
      = List.count "x86_64-unknown-linux-gnu"
          ["x86_64-unknown-linux-gnu", "x86_64-unknown-linux-gnu"] :=
  (duplicates_preserved_verbatim ["x86_64-unknown-linux-gnu", "x86_64-unknown-linux-gnu"]
    "x86_64-unknown-linux-gnu").2 "ubuntu-latest" (by decide)

/-- C7: for the empty input list, generation succeeds; the document consists
of the static sections with an env line carrying zero flag tokens and an
empty matrix block, and no warnings are emitted. -/
theorem empty_target_list_ok (env : FsEnv) (fs : FsState) (w : String)
    (hd : env.createDirAllResult (ciDir w) = none)
    (hf : env.createFileResult (ciFile w) = none)
    (hw : env.writeResult = none) :
    (generate_github_ci env fs w []).1 = .ok ()
    ∧ (write_github_ci []).out
        = GITHUB_CI_PART1 ++ "\n" ++ ("  ALL_CARGO_DIST_TARGET_ARGS: "
            ++ String.join (List.map flagToken [])) ++ "\n" ++ GITHUB_CI_PART2 ++ "\n"
          ++ (GITHUB_CI_PART3 ++ "\n")
    ∧ (write_github_ci []).warnings = [] := by
  refine ⟨?_, ?_, ?_⟩
  · simp [generate_github_ci, hd, hf, hw]
  · rw [write_github_ci_eq]
    simp only [envLine, matrixBlockStr_nil, String.empty_append, String.append_assoc]
  · rw [write_github_ci_eq]
    rfl

/-- C7 witness: the empty target list at a concrete workspace with an
all-succeeding environment. -/
theorem empty_target_list_ok_witness :
    (generate_github_ci envOk ⟨[]⟩ "ws" []).1 = .ok ()
    ∧ (write_github_ci []).out
        = GITHUB_CI_PART1 ++ "\n" ++ ("  ALL_CARGO_DIST_TARGET_ARGS: "
            ++ String.join (List.map flagToken [])) ++ "\n" ++ GITHUB_CI_PART2 ++ "\n"
          ++ (GITHUB_CI_PART3 ++ "\n")
    ∧ (write_github_ci []).warnings = [] :=
  empty_target_list_ok envOk ⟨[]⟩ "ws" rfl rfl rfl

/-- A filesystem environment whose directory creation fails. -/
def envDirFail : FsEnv := ⟨fun _ => some ⟨"disk full"⟩, fun _ => none, none⟩

/-- C8 counterexample: at a concrete directory-creation failure, the wrapping
context emitted by the code is "Failed to create ci dir", which is not the
context "failed to create workflow directory" stated by the claim (and
likewise for the other two steps). -/
theorem failure_context_strings_differ :
    (generate_github_ci envDirFail ⟨[]⟩ "ws" []).1
        = .error ⟨"Failed to create ci dir", ⟨"disk full"⟩⟩
    ∧ ("Failed to create ci dir" : String) ≠ "failed to create workflow directory"
    ∧ ("Failed to create ci file" : String) ≠ "failed to create workflow file"
    ∧ ("Failed to write to CI file" : String) ≠ "failed to write workflow content" :=
  ⟨rfl, by decide, by decide, by decide⟩

/-- C8 (amended): every fatal failure is tagged with the step that failed and
propagated without retry — directory-creation failure with context
"Failed to create ci dir", file-creation failure with context
"Failed to create ci file", write failure with context
"Failed to write to CI file" — and after a directory-creation failure the
filesystem is untouched and no file-creation is attempted. -/
theorem failure_contexts_and_propagation (env : FsEnv) (fs : FsState) (w : String)
    (T : List String) :
    (∀ e : IoError, env.createDirAllResult (ciDir w) = some e →
        (generate_github_ci env fs w T).1 = .error ⟨"Failed to create ci dir", e⟩
        ∧ (generate_github_ci env fs w T).2.1 = fs
        ∧ (generate_github_ci env fs w T).2.2 = [.createDirAll (ciDir w)])
    ∧ (∀ e : IoError, env.createDirAllResult (ciDir w) = none →
        env.createFileResult (ciFile w) = some e →
        (generate_github_ci env fs w T).1 = .error ⟨"Failed to create ci file", e⟩)
    ∧ (∀ e : IoError, env.createDirAllResult (ciDir w) = none →
        env.createFileResult (ciFile w) = none → env.writeResult = some e →
        (generate_github_ci env fs w T).1 = .error ⟨"Failed to write to CI file", e⟩) := by
  refine ⟨fun e hd => ?_, fun e hd hf => ?_, fun e hd hf hw => ?_⟩
  · simp [generate_github_ci, hd]
  · simp [generate_github_ci, hd, hf]
  · simp [generate_github_ci, hd, hf, hw]

/-- C8 witness: the amended contexts and the absence of file creation after a
directory-creation failure, at a concrete failing environment. -/
theorem failure_contexts_and_propagation_witness :
    (generate_github_ci envDirFail ⟨[]⟩ "ws" ["x86_64-unknown-linux-gnu"]).1
        = .error ⟨"Failed to create ci dir", ⟨"disk full"⟩⟩
    ∧ (generate_github_ci envDirFail ⟨[]⟩ "ws" ["x86_64-unknown-linux-gnu"]).2.1 = ⟨[]⟩
    ∧ (generate_github_ci envDirFail ⟨[]⟩ "ws" ["x86_64-unknown-linux-gnu"]).2.2
        = [.createDirAll (ciDir "ws")] :=
  (failure_contexts_and_propagation envDirFail ⟨[]⟩ "ws" ["x86_64-unknown-linux-gnu"]).1
    ⟨"disk full"⟩ rfl

/-- C9: the resolver is a pure total function: for every input string it
returns either no mapping or one of the three fixed runner identifiers. -/
theorem resolver_total_range (t : String) :
    github_os_for_target t = none
    ∨ github_os_for_target t = some "ubuntu-latest"
    ∨ github_os_for_target t = some "macos-latest"
    ∨ github_os_for_target t = some "windows-latest" := by
  unfold github_os_for_target
  split_ifs <;> simp

/-- C10: the resolver's substring matching is case-sensitive: any target
containing none of the exact lowercase substrings "linux", "apple",
"windows" maps to nothing; in particular "X86_64-LINUX-GNU" maps to nothing
although its lowercase form "x86_64-linux-gnu" maps to the Linux runner. -/
theorem resolver_case_sensitive (t : String) :
    (strContains t "linux" = false → strContains t "apple" = false →
      strContains t "windows" = false → github_os_for_target t = none)
    ∧ github_os_for_target "X86_64-LINUX-GNU" = none
    ∧ github_os_for_target "x86_64-linux-gnu" = some "ubuntu-latest" := by
  refine ⟨fun h1 h2 h3 => ?_, by decide, by decide⟩
  simp [github_os_for_target, h1, h2, h3]

/-- C10 witness: the all-uppercase Linux triple resolves to no mapping. -/
theorem resolver_case_sensitive_witness :
    github_os_for_target "X86_64-LINUX-GNU" = none :=
  (resolver_case_sensitive "X86_64-LINUX-GNU").1 (by decide) (by decide) (by decide)
